import Mathlib

set_option linter.unusedVariables false

/-!
Verification of the dataset-preparation pipeline
(`project/utils/image_utils.py`, `project/utils/dataset_utils.py`,
`project/utils/preprocess_images.py`, `project/utils/create_dataset.py`)
against its specification.

The Python sources are shallowly embedded: pure computations become Lean
functions, percentages (Python floats used as exact fractions in the spec)
become rationals, `int()` truncation becomes `pyInt`, and effectful
functions return explicit traces of the file operations they perform.
-/

namespace ImageUtils

/-- Python `int(q)` for a real-valued expression: truncation toward zero. -/
def pyInt (q : ℚ) : ℤ := if q < 0 then -⌊-q⌋ else ⌊q⌋

/-- Embedding of `_split_files(files, test_percentage, train_percentage)`
(`image_utils.py` lines 108-119): `train_count = int(len(files) * train_percentage)`,
`test_count = int(len(files) * test_percentage)`, then the three slices
`files[:train_count]`, `files[train_count:train_count+test_count]`,
`files[train_count+test_count:]`.  The argument order (test before train)
is the source's. -/
def split_files (files : List String) (test_percentage train_percentage : ℚ) :
    List String × List String × List String :=
  let train_count := (pyInt ((files.length : ℚ) * train_percentage)).toNat
  let test_count := (pyInt ((files.length : ℚ) * test_percentage)).toNat
  (files.take train_count,
   (files.drop train_count).take test_count,
   (files.drop train_count).drop test_count)

theorem split_files_append (files : List String) (sp tp : ℚ) :
    (split_files files sp tp).1 ++ (split_files files sp tp).2.1 ++
      (split_files files sp tp).2.2 = files := by
  simp only [split_files, List.append_assoc, List.take_append_drop]

lemma pyInt_nonneg_eq_floor {q : ℚ} (h : 0 ≤ q) : pyInt q = ⌊q⌋ :=
  if_neg (not_lt.mpr h)

lemma floor_mul_le_self {n : ℕ} {p : ℚ} (h1 : p < 1) :
    (⌊(n : ℚ) * p⌋).toNat ≤ n := by
  have hle : (n : ℚ) * p ≤ (n : ℚ) := by
    calc (n : ℚ) * p ≤ (n : ℚ) * 1 := by
          exact mul_le_mul_of_nonneg_left (le_of_lt h1) (by positivity)
      _ = (n : ℚ) := mul_one _
  have hfl : ⌊(n : ℚ) * p⌋ ≤ (n : ℤ) := by
    have := Int.floor_le_floor hle
    simpa using this
  omega

lemma floor_mul_add_le {n : ℕ} {tp sp : ℚ} (htp : 0 < tp) (hsp : 0 < sp)
    (hsum : tp + sp < 1) :
    (⌊(n : ℚ) * tp⌋).toNat + (⌊(n : ℚ) * sp⌋).toNat ≤ n := by
  have h1 : (↑⌊(n : ℚ) * tp⌋ : ℚ) ≤ (n : ℚ) * tp := Int.floor_le _
  have h2 : (↑⌊(n : ℚ) * sp⌋ : ℚ) ≤ (n : ℚ) * sp := Int.floor_le _
  have hlt : (n : ℚ) * tp + (n : ℚ) * sp ≤ (n : ℚ) := by
    have : (n : ℚ) * (tp + sp) ≤ (n : ℚ) * 1 :=
      mul_le_mul_of_nonneg_left (le_of_lt hsum) (by positivity)
    simpa [mul_add] using this
  have hz : ⌊(n : ℚ) * tp⌋ + ⌊(n : ℚ) * sp⌋ ≤ (n : ℤ) := by
    have : (↑(⌊(n : ℚ) * tp⌋ + ⌊(n : ℚ) * sp⌋) : ℚ) ≤ (n : ℚ) := by
      push_cast
      linarith
    exact_mod_cast this
  have ha : 0 ≤ ⌊(n : ℚ) * tp⌋ := Int.floor_nonneg.mpr (by positivity)
  have hb : 0 ≤ ⌊(n : ℚ) * sp⌋ := Int.floor_nonneg.mpr (by positivity)
  omega

/-- C1: for every duplicate-free file list and valid percentage pair, the
three outputs of `_split_files` have lengths summing to the input length,
are pairwise disjoint, and their multiset union is exactly the input list. -/
theorem split_files_partition (files : List String) (tp sp : ℚ)
    (htp0 : 0 < tp) (htp1 : tp < 1) (hsp0 : 0 < sp) (hsp1 : sp < 1)
    (hsum : tp + sp < 1) (hnd : files.Nodup) :
    (split_files files sp tp).1.length + (split_files files sp tp).2.1.length +
        (split_files files sp tp).2.2.length = files.length ∧
      ((split_files files sp tp).1 : Multiset String) +
          ((split_files files sp tp).2.1 : Multiset String) +
          ((split_files files sp tp).2.2 : Multiset String) =
        (files : Multiset String) ∧
      (split_files files sp tp).1.Disjoint (split_files files sp tp).2.1 ∧
      (split_files files sp tp).1.Disjoint (split_files files sp tp).2.2 ∧
      (split_files files sp tp).2.1.Disjoint (split_files files sp tp).2.2 := by
  have happ := split_files_append files sp tp
  set tr := (split_files files sp tp).1 with htr
  set te := (split_files files sp tp).2.1 with hte
  set va := (split_files files sp tp).2.2 with hva
  have hlen : tr.length + te.length + va.length = files.length := by
    have := congrArg List.length happ
    simpa [List.length_append, Nat.add_assoc] using this
  have hms : (tr : Multiset String) + (te : Multiset String) +
      (va : Multiset String) = (files : Multiset String) := by
    rw [Multiset.coe_add, Multiset.coe_add, happ]
  have hndall : (tr ++ te ++ va).Nodup := by rw [happ]; exact hnd
  have h1 := hndall
  rw [List.nodup_append] at h1
  obtain ⟨h12, h3, hdisj⟩ := h1
  rw [List.nodup_append] at h12
  obtain ⟨hA, hB, hAB⟩ := h12
  refine ⟨hlen, hms, hAB, ?_, ?_⟩
  · intro a ha hva'
    exact hdisj (List.mem_append_left te ha) hva'
  · intro a ha hva'
    exact hdisj (List.mem_append_right tr ha) hva'

/-- Witness for C1: the partition property instantiated on a concrete
4-element file list with `train_pct = 1/2`, `test_pct = 1/4`. -/
theorem split_files_partition_witness :
    ((0:ℚ) < 1/2 ∧ (1:ℚ)/2 < 1 ∧ (0:ℚ) < 1/4 ∧ (1:ℚ)/4 < 1 ∧
      (1:ℚ)/2 + 1/4 < 1 ∧ (["a", "b", "c", "d"] : List String).Nodup) ∧
    (split_files ["a", "b", "c", "d"] (1/4) (1/2)).1.length +
        (split_files ["a", "b", "c", "d"] (1/4) (1/2)).2.1.length +
        (split_files ["a", "b", "c", "d"] (1/4) (1/2)).2.2.length = 4 :=
  ⟨⟨by norm_num, by norm_num, by norm_num, by norm_num, by norm_num, by decide⟩,
    (split_files_partition ["a", "b", "c", "d"] (1/2) (1/4) (by norm_num)
      (by norm_num) (by norm_num) (by norm_num) (by norm_num) (by decide)).1⟩

/-- C3: under valid percentages the splitter takes exactly
`floor(n * train_pct)` items for train, the next `floor(n * test_pct)` for
test, and the remaining `n - floor(n*train_pct) - floor(n*test_pct)` for
validation. -/
theorem split_files_counts (files : List String) (tp sp : ℚ)
    (htp0 : 0 < tp) (htp1 : tp < 1) (hsp0 : 0 < sp) (hsp1 : sp < 1)
    (hsum : tp + sp < 1) :
    (split_files files sp tp).1.length =
        (⌊(files.length : ℚ) * tp⌋).toNat ∧
      (split_files files sp tp).2.1.length =
        (⌊(files.length : ℚ) * sp⌋).toNat ∧
      (split_files files sp tp).2.2.length =
        files.length - (⌊(files.length : ℚ) * tp⌋).toNat -
          (⌊(files.length : ℚ) * sp⌋).toNat := by
  have hnn1 : (0:ℚ) ≤ (files.length : ℚ) * tp := by positivity
  have hnn2 : (0:ℚ) ≤ (files.length : ℚ) * sp := by positivity
  have h1 : (⌊(files.length : ℚ) * tp⌋).toNat ≤ files.length :=
    floor_mul_le_self htp1
  have h2 : (⌊(files.length : ℚ) * tp⌋).toNat +
      (⌊(files.length : ℚ) * sp⌋).toNat ≤ files.length :=
    floor_mul_add_le htp0 hsp0 hsum
  refine ⟨?_, ?_, ?_⟩ <;>
    simp [split_files, pyInt_nonneg_eq_floor hnn1, pyInt_nonneg_eq_floor hnn2,
      List.length_take, List.length_drop] <;>
    omega

/-- Witness for C3: a 20-file class with `train_pct = 0.7`, `test_pct = 0.2`
yields 14 train, 4 test and 2 validation files. -/
theorem split_files_counts_witness :
    ((0:ℚ) < 7/10 ∧ (7:ℚ)/10 < 1 ∧ (0:ℚ) < 2/10 ∧ (2:ℚ)/10 < 1 ∧
      (7:ℚ)/10 + 2/10 < 1) ∧
    (split_files (List.replicate 20 "x") (2/10) (7/10)).1.length = 14 ∧
    (split_files (List.replicate 20 "x") (2/10) (7/10)).2.1.length = 4 ∧
    (split_files (List.replicate 20 "x") (2/10) (7/10)).2.2.length = 2 := by
  have h := split_files_counts (List.replicate 20 "x") (7/10) (2/10)
    (by norm_num) (by norm_num) (by norm_num) (by norm_num) (by norm_num)
  refine ⟨by norm_num, ?_, ?_, ?_⟩
  · rw [h.1]; norm_num
    decide
  · rw [h.2.1]; norm_num
    decide
  · rw [h.2.2]; norm_num
    decide

/-- Constant `TRAIN_FOLDER` (`image_utils.py` line 28). -/
def TRAIN_FOLDER : String := "train"

/-- Constant `TEST_FOLDER` (`image_utils.py` line 29). -/
def TEST_FOLDER : String := "test"

/-- Constant `VAL_FOLDER` (`image_utils.py` line 30). -/
def VAL_FOLDER : String := "val"

/-- A file-system operation performed by
`create_train_test_validation_sets`: `os.makedirs` or `shutil.copy2`. -/
inductive FileOp
  | makedirs (path : String)
  | copy2 (src dst : String)
  deriving DecidableEq, Repr

/-- Embedding of `_ensure_valid_percentages` (`image_utils.py` lines
83-94): returns the message of the first `ValueError` raised, or `none`
when both percentages and their sum are valid. -/
def ensure_valid_percentages (train_percentage test_percentage : ℚ) :
    Option String :=
  if ¬ (0 < train_percentage ∧ train_percentage < 1) then
    some "Training percentage must be greater than 0 and less than 1."
  else if ¬ (0 < test_percentage ∧ test_percentage < 1) then
    some "Test percentage must be greater than 0 and less than 1."
  else if 1 ≤ train_percentage + test_percentage then
    some "Sum of training and test percentages cannot exceed 1."
  else
    none

/-- `os.path.join` for the two-argument calls used by `image_utils.py`. -/
def pathJoin (a b : String) : String := a ++ "/" ++ b

/-- Operations of `_create_output_folder` / `_create_image_class_output_folder`
(`image_utils.py` lines 136-151): create the directory when absent.  The
embedding records the `makedirs` call unconditionally; an existing
directory merely makes it a no-op, which is irrelevant to the claims. -/
def createFolderOps (root folder : String) : List FileOp :=
  [FileOp.makedirs (pathJoin root folder)]

/-- Operations of `_copy_files_to_output` (`image_utils.py` lines
97-105): create the class output folder, then `shutil.copy2` each file. -/
def copyFilesToOutputOps (outputFolder cls : String)
    (files : List String) : List FileOp :=
  createFolderOps outputFolder cls ++
    files.map (fun f => FileOp.copy2 f (pathJoin outputFolder cls))

/-- Embedding of `create_train_test_validation_sets` (`image_utils.py`
lines 34-80).  The input directory is embedded as its `os.listdir`
result: one `(class folder, file list)` pair per class; `random.shuffle`
is embedded as a caller-supplied reordering applied per class.  The result
is the list of file operations performed, paired with the message of the
raised `ValueError` (if any): operations performed before a raise appear
in the list. -/
def create_train_test_validation_sets
    (inputClasses : List (String × List String))
    (shuffle : List String → List String)
    (outputDir : String)
    (train_percentage test_percentage : ℚ) :
    List FileOp × Option String :=
  match ensure_valid_percentages train_percentage test_percentage with
  | some msg => ([], some msg)
  | none =>
    let outputFolders :=
      [TRAIN_FOLDER, TEST_FOLDER, VAL_FOLDER].map (pathJoin outputDir)
    let mkdirOps := outputFolders.map FileOp.makedirs
    let classOps := inputClasses.flatMap (fun p =>
      let shuffled := shuffle p.2
      let s := split_files shuffled test_percentage train_percentage
      copyFilesToOutputOps (outputFolders.getD 0 "") p.1 s.1 ++
        copyFilesToOutputOps (outputFolders.getD 1 "") p.1 s.2.1 ++
        copyFilesToOutputOps (outputFolders.getD 2 "") p.1 s.2.2)
    (mkdirOps ++ classOps, none)

/-- C4: any invalid percentage combination makes
`create_train_test_validation_sets` raise a `ValueError` whose message
names the violated constraint, before performing any file operation. -/
theorem create_sets_invalid_pct (inputClasses : List (String × List String))
    (shuffle : List String → List String) (outputDir : String)
    (tp sp : ℚ)
    (hbad : ¬ (0 < tp ∧ tp < 1) ∨ ¬ (0 < sp ∧ sp < 1) ∨ 1 ≤ tp + sp) :
    ∃ msg,
      create_train_test_validation_sets inputClasses shuffle outputDir tp sp =
          ([], some msg) ∧
        ((msg = "Training percentage must be greater than 0 and less than 1." ∧
            ¬ (0 < tp ∧ tp < 1)) ∨
          (msg = "Test percentage must be greater than 0 and less than 1." ∧
            ¬ (0 < sp ∧ sp < 1)) ∨
          (msg = "Sum of training and test percentages cannot exceed 1." ∧
            1 ≤ tp + sp)) := by
  unfold create_train_test_validation_sets ensure_valid_percentages
  by_cases h1 : 0 < tp ∧ tp < 1
  · by_cases h2 : 0 < sp ∧ sp < 1
    · have h3 : 1 ≤ tp + sp := by tauto
      refine ⟨_, ?_, Or.inr (Or.inr ⟨rfl, h3⟩)⟩
      simp [h1, h2, h3]
    · refine ⟨_, ?_, Or.inr (Or.inl ⟨rfl, h2⟩)⟩
      simp [h1, h2]
  · refine ⟨_, ?_, Or.inl ⟨rfl, h1⟩⟩
    simp [h1]

/-- Witness for C4: `train_pct = 0.5`, `test_pct = 0.5` (sum equal to 1)
raises before any file operation. -/
theorem create_sets_invalid_pct_witness :
    (¬ ((0:ℚ) < 1/2 ∧ (1:ℚ)/2 < 1) ∨ ¬ ((0:ℚ) < 1/2 ∧ (1:ℚ)/2 < 1) ∨
      (1:ℚ) ≤ 1/2 + 1/2) ∧
    ∃ msg,
      create_train_test_validation_sets [("bird", ["a", "b"])] id "out"
          (1/2) (1/2) = ([], some msg) ∧
        ((msg = "Training percentage must be greater than 0 and less than 1." ∧
            ¬ ((0:ℚ) < 1/2 ∧ (1:ℚ)/2 < 1)) ∨
          (msg = "Test percentage must be greater than 0 and less than 1." ∧
            ¬ ((0:ℚ) < 1/2 ∧ (1:ℚ)/2 < 1)) ∨
          (msg = "Sum of training and test percentages cannot exceed 1." ∧
            (1:ℚ) ≤ 1/2 + 1/2)) :=
  ⟨by norm_num,
    create_sets_invalid_pct [("bird", ["a", "b"])] id "out" (1/2) (1/2)
      (by norm_num)⟩

end ImageUtils

namespace DatasetUtils

/-- A value stored in the pickled dataset dictionary
(`dataset_utils.py`): either an array (of opaque elements, embedded as
integers) or the nested `filenames` dictionary with its `train` / `val` /
`test` lists. -/
inductive PyVal
  | arr (elems : List ℤ)
  | fmap (train val test : List String)
  deriving DecidableEq, Repr

/-- A Python dictionary keyed by strings, as pickled by `save_dataset`
and read back by `load_dataset`. -/
def Payload : Type := String → Option PyVal

/-- `required_keys` of `dataset_utils.load_dataset` (lines 163-171), in
source order. -/
def required_keys : List String :=
  ["train_images", "train_labels", "test_images", "test_labels",
   "val_images", "val_labels", "filenames"]

/-- The tuple returned by `dataset_utils.load_dataset`
(`tuple(data[key] for key in required_keys)`, line 180). -/
structure LoadedTuple where
  train_images : PyVal
  train_labels : PyVal
  test_images : PyVal
  test_labels : PyVal
  val_images : PyVal
  val_labels : PyVal
  filenames : PyVal
  deriving DecidableEq, Repr

/-- The on-disk artifact `load_dataset` opens: the file may be absent or
unopenable (`FileNotFoundError` / `IOError`), its bytes may fail to
unpickle (`pickle.UnpicklingError`), or it unpickles to a dictionary.
`pickle` is modelled by its contract: `pickle.load` returns an object
equal to the one passed to `pickle.dump`. -/
inductive PickleFile
  | openFailure
  | corrupt
  | payload (d : Payload)

/-- Embedding of the `pickle.dump` call in `save_dataset`
(`dataset_utils.py` lines 141-146): writing the dictionary `data_to_save`
produces an artifact that unpickles back to an equal dictionary. -/
def dumpPayload (d : Payload) : PickleFile := PickleFile.payload d

/-- `data[key]` under the guard that every required key is present; the
default is never reached on the guarded path. -/
def getKey (d : Payload) (k : String) : PyVal := (d k).getD (PyVal.arr [])

/-- Embedding of `dataset_utils.load_dataset` (lines 148-190): open the
file, unpickle it, check that every required key is present, and return
the tuple of required-key values in `required_keys` order; each failure
is re-raised as a `RuntimeError` carrying the given message. -/
def load_dataset (f : PickleFile) : Except String LoadedTuple :=
  match f with
  | PickleFile.openFailure => Except.error "Error opening the file"
  | PickleFile.corrupt => Except.error "Error unpickling the file"
  | PickleFile.payload d =>
    if required_keys.all (fun k => (d k).isSome) then
      Except.ok
        { train_images := getKey d "train_images"
          train_labels := getKey d "train_labels"
          test_images := getKey d "test_images"
          test_labels := getKey d "test_labels"
          val_images := getKey d "val_images"
          val_labels := getKey d "val_labels"
          filenames := getKey d "filenames" }
    else
      Except.error "Missing one or more required keys in the loaded data"

/-- The mapping determined by a loaded tuple: each required key is sent
back to the tuple slot `load_dataset` filled from it. -/
def rebuild (t : LoadedTuple) : Payload := fun k =>
  if k = "train_images" then some t.train_images
  else if k = "train_labels" then some t.train_labels
  else if k = "test_images" then some t.test_images
  else if k = "test_labels" then some t.test_labels
  else if k = "val_images" then some t.val_images
  else if k = "val_labels" then some t.val_labels
  else if k = "filenames" then some t.filenames
  else none

/-- Array length of a payload entry (0 for a missing key or for the
nested filenames dictionary); used to state length consistency. -/
def arrLen (d : Payload) (k : String) : ℕ :=
  match d k with
  | some (PyVal.arr xs) => xs.length
  | _ => 0

/-- Within each split, the image and label arrays have equal length. -/
def lengthsConsistent (d : Payload) : Prop :=
  arrLen d "train_images" = arrLen d "train_labels" ∧
    arrLen d "val_images" = arrLen d "val_labels" ∧
    arrLen d "test_images" = arrLen d "test_labels"

lemma getKey_eq {d : Payload} {k : String} (h : (d k).isSome) :
    some (getKey d k) = d k := by
  unfold getKey
  cases hd : d k with
  | none => rw [hd] at h; simp at h
  | some v => rfl

/-- C2: for a dictionary holding exactly the required keys, with
consistent array lengths within each split, pickling it with
`save_dataset`'s dump and reading it back with `load_dataset` succeeds
and returns exactly the saved mapping: the tuple's slots, laid back onto
their keys, agree with the original dictionary at every key. -/
theorem load_save_roundtrip (d : Payload)
    (hkeys : ∀ k, (d k).isSome ↔ k ∈ required_keys)
    (hlen : lengthsConsistent d) :
    ∃ t, load_dataset (dumpPayload d) = Except.ok t ∧ ∀ k, rebuild t k = d k := by
  have hall : required_keys.all (fun k => (d k).isSome) = true := by
    rw [List.all_eq_true]
    intro k hk
    exact (hkeys k).mpr hk
  have hsome : ∀ k, k ∈ required_keys → (d k).isSome := fun k hk =>
    (hkeys k).mpr hk
  refine ⟨{ train_images := getKey d "train_images"
            train_labels := getKey d "train_labels"
            test_images := getKey d "test_images"
            test_labels := getKey d "test_labels"
            val_images := getKey d "val_images"
            val_labels := getKey d "val_labels"
            filenames := getKey d "filenames" }, ?_, ?_⟩
  · simp [load_dataset, dumpPayload, hall]
  intro k
  by_cases h1 : k = "train_images"
  · subst h1
    exact getKey_eq (hsome "train_images" (by simp [required_keys]))
  by_cases h2 : k = "train_labels"
  · subst h2
    simp only [rebuild, if_neg (by decide : ¬ ("train_labels" = "train_images")),
      if_pos rfl]
    exact getKey_eq (hsome "train_labels" (by simp [required_keys]))
  by_cases h3 : k = "test_images"
  · subst h3
    simp only [rebuild, if_neg (by decide : ¬ ("test_images" = "train_images")),
      if_neg (by decide : ¬ ("test_images" = "train_labels")), if_pos rfl]
    exact getKey_eq (hsome "test_images" (by simp [required_keys]))
  by_cases h4 : k = "test_labels"
  · subst h4
    simp only [rebuild, if_neg (by decide : ¬ ("test_labels" = "train_images")),
      if_neg (by decide : ¬ ("test_labels" = "train_labels")),
      if_neg (by decide : ¬ ("test_labels" = "test_images")), if_pos rfl]
    exact getKey_eq (hsome "test_labels" (by simp [required_keys]))
  by_cases h5 : k = "val_images"
  · subst h5
    simp only [rebuild, if_neg (by decide : ¬ ("val_images" = "train_images")),
      if_neg (by decide : ¬ ("val_images" = "train_labels")),
      if_neg (by decide : ¬ ("val_images" = "test_images")),
      if_neg (by decide : ¬ ("val_images" = "test_labels")), if_pos rfl]
    exact getKey_eq (hsome "val_images" (by simp [required_keys]))
  by_cases h6 : k = "val_labels"
  · subst h6
    simp only [rebuild, if_neg (by decide : ¬ ("val_labels" = "train_images")),
      if_neg (by decide : ¬ ("val_labels" = "train_labels")),
      if_neg (by decide : ¬ ("val_labels" = "test_images")),
      if_neg (by decide : ¬ ("val_labels" = "test_labels")),
      if_neg (by decide : ¬ ("val_labels" = "val_images")), if_pos rfl]
    exact getKey_eq (hsome "val_labels" (by simp [required_keys]))
  by_cases h7 : k = "filenames"
  · subst h7
    simp only [rebuild, if_neg (by decide : ¬ ("filenames" = "train_images")),
      if_neg (by decide : ¬ ("filenames" = "train_labels")),
      if_neg (by decide : ¬ ("filenames" = "test_images")),
      if_neg (by decide : ¬ ("filenames" = "test_labels")),
      if_neg (by decide : ¬ ("filenames" = "val_images")),
      if_neg (by decide : ¬ ("filenames" = "val_labels")), if_pos rfl]
    exact getKey_eq (hsome "filenames" (by simp [required_keys]))
  have hmem : k ∉ required_keys := by
    simp [required_keys, h1, h2, h3, h4, h5, h6, h7]
  have hdnone : d k = none := by
    by_contra hne
    exact hmem ((hkeys k).mp (Option.isSome_iff_ne_none.mpr hne))
  simp [rebuild, h1, h2, h3, h4, h5, h6, h7, hdnone]

/-- A concrete valid payload: every required key maps to an empty array
(the `filenames` key to the empty nested dictionary), everything else is
absent. -/
def samplePayload : Payload := fun k =>
  if k = "filenames" then some (PyVal.fmap [] [] [])
  else if k ∈ ["train_images", "train_labels", "test_images", "test_labels",
      "val_images", "val_labels"] then some (PyVal.arr [])
  else none

/-- Witness for C2: the round trip evaluated on `samplePayload`. -/
theorem load_save_roundtrip_witness :
    (∀ k, (samplePayload k).isSome ↔ k ∈ required_keys) ∧
    (lengthsConsistent samplePayload) ∧
    ∃ t, load_dataset (dumpPayload samplePayload) = Except.ok t ∧
      ∀ k, rebuild t k = samplePayload k := by
  have hkeys : ∀ k, (samplePayload k).isSome ↔ k ∈ required_keys := by
    intro k
    by_cases h : k ∈ required_keys
    · constructor
      · intro _; exact h
      · intro _
        fin_cases h <;> simp [samplePayload]
    · constructor
      · intro hs
        exfalso
        have : samplePayload k = none := by
          simp only [required_keys, List.mem_cons, List.not_mem_nil] at h
          push_neg at h
          simp [samplePayload, h.1, h.2.1, h.2.2.1, h.2.2.2.1, h.2.2.2.2.1,
            h.2.2.2.2.2.1, h.2.2.2.2.2.2]
        simp [this] at hs
      · intro hk; exact absurd hk h
  have hlen : lengthsConsistent samplePayload := by
    refine ⟨?_, ?_, ?_⟩ <;> rfl
  exact ⟨hkeys, hlen, load_save_roundtrip samplePayload hkeys hlen⟩

/-- C6: `load_dataset` fails with a `RuntimeError` when the payload misses
any required key, when the file cannot be opened, or when the bytes cannot
be unpickled; a payload with all required keys (extra keys allowed) is
accepted. -/
theorem load_dataset_error_cases :
    (∀ (d : Payload) (k : String), k ∈ required_keys → d k = none →
      load_dataset (PickleFile.payload d) =
        Except.error "Missing one or more required keys in the loaded data") ∧
    load_dataset PickleFile.openFailure =
      Except.error "Error opening the file" ∧
    load_dataset PickleFile.corrupt =
      Except.error "Error unpickling the file" ∧
    (∀ d : Payload, (∀ k, k ∈ required_keys → (d k).isSome) →
      ∃ t, load_dataset (PickleFile.payload d) = Except.ok t) := by
  refine ⟨?_, rfl, rfl, ?_⟩
  · intro d k hk hnone
    simp only [load_dataset]
    rw [if_neg]
    intro hall
    rw [List.all_eq_true] at hall
    have := hall k hk
    simp [hnone] at this
  · intro d hd
    have hall : required_keys.all (fun k => (d k).isSome) = true := by
      rw [List.all_eq_true]
      exact hd
    exact ⟨{ train_images := getKey d "train_images"
             train_labels := getKey d "train_labels"
             test_images := getKey d "test_images"
             test_labels := getKey d "test_labels"
             val_images := getKey d "val_images"
             val_labels := getKey d "val_labels"
             filenames := getKey d "filenames" },
      by simp [load_dataset, hall]⟩

/-- A payload missing only the `val_images` required key. -/
def missingValPayload : Payload := fun k =>
  if k ∈ ["train_images", "train_labels", "test_images", "test_labels",
      "val_labels", "filenames"] then some (PyVal.arr []) else none

/-- A payload with every required key plus an extra `epochs` key. -/
def extraKeyPayload : Payload := fun k =>
  if k = "epochs" then some (PyVal.arr [5]) else samplePayload k

/-- Witness for C6: the missing-key failure at `missingValPayload` and
the extra-key acceptance at `extraKeyPayload`. -/
theorem load_dataset_error_cases_witness :
    ("val_images" ∈ required_keys ∧ missingValPayload "val_images" = none ∧
      (∀ k, k ∈ required_keys → (extraKeyPayload k).isSome)) ∧
    load_dataset (PickleFile.payload missingValPayload) =
      Except.error "Missing one or more required keys in the loaded data" ∧
    ∃ t, load_dataset (PickleFile.payload extraKeyPayload) = Except.ok t := by
  have h1 : "val_images" ∈ required_keys := by simp [required_keys]
  have h2 : missingValPayload "val_images" = none := rfl
  have h3 : ∀ k, k ∈ required_keys → (extraKeyPayload k).isSome := by
    intro k hk
    fin_cases hk <;> rfl
  exact ⟨⟨h1, h2, h3⟩,
    load_dataset_error_cases.1 missingValPayload "val_images" h1 h2,
    load_dataset_error_cases.2.2.2 extraKeyPayload h3⟩

/-- Applies an index order to a list: element `i` of the result is
`xs[order[i]]`.  Indices out of range are dropped (sklearn's index arrays
are permutations, so nothing is dropped in practice). -/
def reorder {α : Type} (order : List ℕ) (xs : List α) : List α :=
  order.filterMap (fun i => xs[i]?)

/-- The six return values of `sklearn.model_selection.train_test_split`
on three parallel sequences, in sklearn's return order: train-part and
test-part of each argument, arguments in call order. -/
structure TTSplit (α β γ : Type) where
  aTrain : List α
  aTest : List α
  bTrain : List β
  bTest : List β
  cTrain : List γ
  cTest : List γ

/-- Modelled from the sklearn contract (an external collaborator):
`train_test_split(a, b, c, train_size/test_size, random_state)` draws one
shuffled index order from `random_state`, applies the same order to every
input sequence, and returns the train-part and test-part of each.  The
shuffled order is the parameter `order`; `k` is the number of train
items. -/
def train_test_split {α β γ : Type} (order : List ℕ) (k : ℕ)
    (a : List α) (b : List β) (c : List γ) : TTSplit α β γ :=
  let a' := reorder order a
  let b' := reorder order b
  let c' := reorder order c
  ⟨a'.take k, a'.drop k, b'.take k, b'.drop k, c'.take k, c'.drop k⟩

/-- Embedding of the split-and-assemble stage of
`dataset_utils.save_dataset` (lines 101-139).  The first
`train_test_split` is unpacked as
`(x_train, x_temp, y_train, y_temp, filenames_train, filenames_temp)`;
the second is unpacked — exactly as the source does on lines 115-125 —
as `(x_val, x_test, y_val, y_test, filenames_test, filenames_val)`,
binding the fifth result to `filenames_test` and the sixth to
`filenames_val`.  The resulting dictionary `data_to_save` (lines
127-139) is returned. -/
def save_dataset_payload (order1 order2 : List ℕ) (k1 k2 : ℕ)
    (all_images all_labels : List ℤ) (all_filenames : List String) :
    Payload :=
  let s1 := train_test_split order1 k1 all_images all_labels all_filenames
  let s2 := train_test_split order2 k2 s1.aTest s1.bTest s1.cTest
  fun k =>
    if k = "train_images" then some (PyVal.arr s1.aTrain)
    else if k = "train_labels" then some (PyVal.arr s1.bTrain)
    else if k = "val_images" then some (PyVal.arr s2.aTrain)
    else if k = "val_labels" then some (PyVal.arr s2.bTrain)
    else if k = "test_images" then some (PyVal.arr s2.aTest)
    else if k = "test_labels" then some (PyVal.arr s2.bTest)
    else if k = "filenames" then some (PyVal.fmap s1.cTrain s2.cTest s2.cTrain)
    else none

/-- Input images for the C7 failing run (opaque pixel-array handles). -/
def c7Images : List ℤ := [10, 20, 30, 40, 50]

/-- Input labels for the C7 failing run. -/
def c7Labels : List ℤ := [0, 1, 0, 1, 0]

/-- Input filenames for the C7 failing run: image `10` comes from file
`"a"`, ..., image `50` from file `"e"`. -/
def c7Names : List String := ["a", "b", "c", "d", "e"]

/-- C7 fails on the code: with the identity shuffle, the validation split
holds image `40` — whose source file is `"d"` — yet the saved
`filenames` dictionary records `["e"]` under `val` and `["d"]` under
`test`: the val and test filename manifests are swapped relative to the
image and label arrays. -/
theorem save_dataset_filenames_swapped :
    save_dataset_payload [0, 1, 2, 3, 4] [0, 1] 3 1 c7Images c7Labels c7Names
        "val_images" = some (PyVal.arr [40]) ∧
    save_dataset_payload [0, 1, 2, 3, 4] [0, 1] 3 1 c7Images c7Labels c7Names
        "test_images" = some (PyVal.arr [50]) ∧
    save_dataset_payload [0, 1, 2, 3, 4] [0, 1] 3 1 c7Images c7Labels c7Names
        "filenames" = some (PyVal.fmap ["a", "b", "c"] ["e"] ["d"]) ∧
    c7Images.zip c7Names =
      [(10, "a"), (20, "b"), (30, "c"), (40, "d"), (50, "e")] :=
  ⟨rfl, rfl, rfl, rfl⟩

end DatasetUtils

namespace PreprocessImages

/-- A file reachable from the input root, as yielded by
`Path(input_dir).rglob("*")`: its path relative to the input root, its
`Path.suffix`, and whether PIL can decode it (`ok = false` embeds a
corrupt or unreadable image, for which `Image.open`/decoding raises). -/
structure FSFile where
  path : String
  suffix : String
  ok : Bool
  deriving DecidableEq, Repr

/-- The input tree handed to `find_images` / `process_images`: whether
the root exists and is a directory, and the recursive file listing under
it. -/
structure FS where
  rootIsDir : Bool
  files : List FSFile
  deriving DecidableEq, Repr

/-- Python's `str.lower()` on a suffix: lowercase every character. -/
def pyLower (s : String) : String := String.mk (s.data.map Char.toLower)

/-- Embedding of `Path(input_dir).rglob("*")` (`preprocess_images.py`
line 110): pathlib's glob machinery yields the recursive listing of an
existing directory and silently yields nothing — raising no exception —
when the root does not exist or is not a directory. -/
def rglob (fs : FS) : List FSFile :=
  if fs.rootIsDir then fs.files else []

/-- `image_extensions` (`preprocess_images.py` line 106). -/
def image_extensions : List String :=
  [".png", ".jpg", ".jpeg", ".bmp", ".tiff"]

/-- `image_count_by_type[key] += 1` on a `defaultdict(int)`, preserving
Python's dictionary insertion order. -/
def bumpCount (m : List (String × ℕ)) (k : String) : List (String × ℕ) :=
  match m with
  | [] => [(k, 1)]
  | (k', c) :: rest =>
    if k' = k then (k', c + 1) :: rest else (k', c) :: bumpCount rest k

/-- The `for file in Path(input_dir).rglob("*")` loop of `find_images`
(lines 110-113), with the accumulated path list and count dictionary
made explicit. -/
def find_images_loop (files : List FSFile) (paths : List FSFile)
    (counts : List (String × ℕ)) : List FSFile × List (String × ℕ) :=
  match files with
  | [] => (paths, counts)
  | f :: rest =>
    if pyLower f.suffix ∈ image_extensions then
      find_images_loop rest (paths ++ [f]) (bumpCount counts (pyLower f.suffix))
    else
      find_images_loop rest paths counts

/-- Embedding of `find_images` (`preprocess_images.py` lines 90-115). -/
def find_images (fs : FS) : List FSFile × List (String × ℕ) :=
  find_images_loop (rglob fs) [] []

lemma bumpCount_sum (m : List (String × ℕ)) (k : String) :
    ((bumpCount m k).map (fun kc => kc.2)).sum =
      (m.map (fun kc => kc.2)).sum + 1 := by
  induction m with
  | nil => simp [bumpCount]
  | cons p rest ih =>
    obtain ⟨k', c⟩ := p
    by_cases h : k' = k
    · simp [bumpCount, h]
      omega
    · simp [bumpCount, h, ih]
      omega

lemma bumpCount_keys (m : List (String × ℕ)) (k : String)
    (hm : ∀ kc ∈ m, kc.1 ∈ image_extensions) (hk : k ∈ image_extensions) :
    ∀ kc ∈ bumpCount m k, kc.1 ∈ image_extensions := by
  induction m with
  | nil =>
    intro kc hkc
    simp [bumpCount] at hkc
    subst hkc
    exact hk
  | cons p rest ih =>
    obtain ⟨k', c⟩ := p
    intro kc hkc
    by_cases h : k' = k
    · simp only [bumpCount, if_pos h, List.mem_cons] at hkc
      rcases hkc with h1 | h1
      · subst h1; exact hm (k', c) (by simp)
      · exact hm kc (List.mem_cons_of_mem _ h1)
    · simp only [bumpCount, if_neg h, List.mem_cons] at hkc
      rcases hkc with h1 | h1
      · subst h1; exact hm (k', c) (by simp)
      · exact ih (fun kc hkc => hm kc (List.mem_cons_of_mem _ hkc)) kc h1

lemma find_images_loop_invariant (files : List FSFile) :
    ∀ (paths : List FSFile) (counts : List (String × ℕ)),
      (∀ f ∈ paths, pyLower f.suffix ∈ image_extensions) →
      (∀ kc ∈ counts, kc.1 ∈ image_extensions) →
      (counts.map (fun kc => kc.2)).sum = paths.length →
      (∀ f ∈ (find_images_loop files paths counts).1,
          pyLower f.suffix ∈ image_extensions) ∧
        (∀ kc ∈ (find_images_loop files paths counts).2,
          kc.1 ∈ image_extensions) ∧
        ((find_images_loop files paths counts).2.map (fun kc => kc.2)).sum =
          (find_images_loop files paths counts).1.length := by
  induction files with
  | nil =>
    intro paths counts hp hc hs
    exact ⟨hp, hc, hs⟩
  | cons f rest ih =>
    intro paths counts hp hc hs
    by_cases h : pyLower f.suffix ∈ image_extensions
    · simp only [find_images_loop, if_pos h]
      refine ih (paths ++ [f]) (bumpCount counts (pyLower f.suffix)) ?_ ?_ ?_
      · intro g hg
        rcases List.mem_append.mp hg with h1 | h1
        · exact hp g h1
        · simp at h1; subst h1; exact h
      · exact bumpCount_keys counts _ hc h
      · rw [bumpCount_sum, hs]
        simp
    · simp only [find_images_loop, if_neg h]
      exact ih paths counts hp hc hs

/-- C10: every path returned by `find_images` has a lowercased suffix
among the five image extensions, every key of the count dictionary is one
of those extensions, and the counts sum to the number of returned
paths. -/
theorem find_images_invariant (fs : FS) :
    (∀ f ∈ (find_images fs).1, pyLower f.suffix ∈ image_extensions) ∧
      (∀ kc ∈ (find_images fs).2, kc.1 ∈ image_extensions) ∧
      ((find_images fs).2.map (fun kc => kc.2)).sum =
        (find_images fs).1.length :=
  find_images_loop_invariant (rglob fs) [] []
    (by intro f hf; simp at hf) (by intro kc hkc; simp at hkc) rfl

/-- An input tree whose root is missing (or is not a directory) but
which would hold one image file if it existed. -/
def missingRootFS : FS :=
  { rootIsDir := false, files := [⟨"bird/b1.jpeg", ".jpeg", true⟩] }

/-- C9 fails on the code: `find_images` performs no existence check on
its root, and `rglob` raises nothing for a missing root, so discovery on
a non-existent root returns the ordinary empty result `([], {})` instead
of failing with a `NotFound` error. -/
theorem find_images_missing_root_counterexample :
    find_images missingRootFS = ([], []) := rfl

/-- C9 amended: for every root that does not exist or is not a
directory, `find_images` returns the empty path list and the empty count
dictionary (it does not fail). -/
theorem find_images_missing_root (fs : FS) (h : fs.rootIsDir = false) :
    find_images fs = ([], []) := by
  simp [find_images, rglob, h, find_images_loop]

/-- Witness for the amended C9 at a concrete missing-root tree. -/
theorem find_images_missing_root_witness :
    ({ rootIsDir := false,
       files := [⟨"cat/c1.jpg", ".jpg", true⟩] } : FS).rootIsDir = false ∧
    find_images
        { rootIsDir := false, files := [⟨"cat/c1.jpg", ".jpg", true⟩] } =
      ([], []) :=
  ⟨rfl, find_images_missing_root _ rfl⟩

/-- A message emitted through the logging module. -/
inductive LogMsg
  | warning (m : String)
  | info (m : String)
  | error (m : String)
  deriving DecidableEq, Repr

/-- Whether a log message is an error report. -/
def isErrorLog : LogMsg → Bool
  | LogMsg.error _ => true
  | _ => false

/-- Destination path of one resize task:
`Path(output_dir) / image_path.relative_to(input_dir)`
(`preprocess_images.py` line 155); `FSFile.path` stores the
root-relative part. -/
def relDest (output_dir : String) (f : FSFile) : String :=
  output_dir ++ "/" ++ f.path

/-- Embedding of `resize_image` (`preprocess_images.py` lines 64-87):
open the source (PIL raises `UnidentifiedImageError` on a corrupt or
unreadable file), resize (PIL raises `ValueError` on a non-positive
target dimension), create the destination directory and write the
output.  Every exception is caught and logged with the exception's type,
so `resize_image` itself never raises.  Returns the files written and
the log message. -/
def resize_image (size : ℤ × ℤ) (f : FSFile) (output_path : String) :
    List String × LogMsg :=
  if f.ok = false then
    ([], LogMsg.error ("Error resizing image " ++ f.path ++
      ": UnidentifiedImageError - cannot identify image file"))
  else if ¬ (0 < size.1 ∧ 0 < size.2) then
    ([], LogMsg.error ("Error resizing image " ++ f.path ++
      ": ValueError - height and width must be > 0"))
  else
    ([output_path], LogMsg.info ("Resized and saved: " ++ output_path))

/-- Observable outcome of one `process_images` call: the exception it
propagates (if any), the source paths of the tasks submitted to the
process pool, the messages logged, and the files written under the
destination tree. -/
structure RunResult where
  raised : Option String
  scheduled : List String
  logs : List LogMsg
  destWrites : List String
  deriving DecidableEq, Repr

/-- The discovery log lines of `process_images` (lines 148-152): the
total found and the count of each extension. -/
def foundLogs (fs : FS) : List LogMsg :=
  LogMsg.info ("Found " ++ toString (find_images fs).1.length ++
      " images. Starting resizing process...") ::
    (find_images fs).2.map (fun ec =>
      LogMsg.info ("Found " ++ toString ec.2 ++ " " ++ ec.1 ++ " images."))

/-- Embedding of `process_images` (`preprocess_images.py` lines
118-174): discover images, return early with a warning when none are
found, log the counts, build the task list
`(image_path, output_dir / relative path)` (inlined below into the
per-image `resize_image` calls), then run every task through the process
pool and collect the per-image outcomes.
`ProcessPoolExecutor(max_workers=w)` with `w ≤ 0` raises
`ValueError("max_workers must be greater than 0")` in its constructor —
before any task is submitted or worker process spawned
(`concurrent.futures` contract).  The source contains no validation of
`size` or `max_workers` of its own. -/
def process_images (fs : FS) (output_dir : String) (size : ℤ × ℤ)
    (max_workers : ℤ) : RunResult :=
  if (find_images fs).1.isEmpty then
    { raised := none, scheduled := [],
      logs := [LogMsg.warning "No images found in the directory"],
      destWrites := [] }
  else if max_workers ≤ 0 then
    { raised := some "ValueError: max_workers must be greater than 0",
      scheduled := [], logs := foundLogs fs, destWrites := [] }
  else
    { raised := none,
      scheduled := (find_images fs).1.map (fun f => f.path),
      logs := (foundLogs fs ++
          ((find_images fs).1.map (fun f =>
            resize_image size f (relDest output_dir f))).map (fun r => r.2)) ++
        [LogMsg.info "Time taken to resize images."],
      destWrites := (((find_images fs).1.map (fun f =>
        resize_image size f (relDest output_dir f))).map (fun r => r.1)).flatten }

lemma resize_image_ok {size : ℤ × ℤ} (hs : 0 < size.1 ∧ 0 < size.2)
    {f : FSFile} (hf : f.ok = true) (out : String) :
    resize_image size f out =
      ([out], LogMsg.info ("Resized and saved: " ++ out)) := by
  simp [resize_image, hf, hs]

lemma resize_image_corrupt {size : ℤ × ℤ} {f : FSFile} (hf : f.ok = false)
    (out : String) :
    resize_image size f out =
      ([], LogMsg.error ("Error resizing image " ++ f.path ++
        ": UnidentifiedImageError - cannot identify image file")) := by
  simp [resize_image, hf]

lemma resize_batch {size : ℤ × ℤ} (hs : 0 < size.1 ∧ 0 < size.2)
    (out : String) (L : List FSFile) :
    ((L.map (fun f => resize_image size f (relDest out f))).map
        (fun r => r.2)).countP isErrorLog =
        L.countP (fun f => ! f.ok) ∧
      ((L.map (fun f => resize_image size f (relDest out f))).map
        (fun r => r.1)).flatten =
        (L.filter (fun f => f.ok)).map (relDest out) ∧
      (∀ m ∈ (L.map (fun f => resize_image size f (relDest out f))).map
          (fun r => r.2),
        isErrorLog m = true →
          ∃ f ∈ L, f.ok = false ∧
            m = LogMsg.error ("Error resizing image " ++ f.path ++
              ": UnidentifiedImageError - cannot identify image file")) := by
  induction L with
  | nil => refine ⟨rfl, rfl, ?_⟩; intro m hm; simp at hm
  | cons f rest ih =>
    obtain ⟨ih1, ih2, ih3⟩ := ih
    by_cases hf : f.ok = true
    · refine ⟨?_, ?_, ?_⟩
      · simp only [List.map_cons, resize_image_ok hs hf,
          List.countP_cons, hf]
        simpa [isErrorLog] using ih1
      · simp only [List.map_cons, resize_image_ok hs hf, List.flatten,
          List.filter_cons, hf]
        simpa using ih2
      · intro m hm hme
        simp only [List.map_cons, resize_image_ok hs hf,
          List.mem_cons] at hm
        rcases hm with h1 | h1
        · subst h1; simp [isErrorLog] at hme
        · obtain ⟨g, hg, hgo, hgm⟩ := ih3 m h1 hme
          exact ⟨g, List.mem_cons_of_mem _ hg, hgo, hgm⟩
    · have hf' : f.ok = false := by simpa using hf
      refine ⟨?_, ?_, ?_⟩
      · simp only [List.map_cons, resize_image_corrupt hf',
          List.countP_cons, hf']
        simpa [isErrorLog] using ih1
      · simp only [List.map_cons, resize_image_corrupt hf', List.flatten,
          List.filter_cons, hf']
        simpa using ih2
      · intro m hm hme
        simp only [List.map_cons, resize_image_corrupt hf',
          List.mem_cons] at hm
        rcases hm with h1 | h1
        · exact ⟨f, List.mem_cons_self f rest, hf', h1⟩
        · obtain ⟨g, hg, hgo, hgm⟩ := ih3 m h1 hme
          exact ⟨g, List.mem_cons_of_mem _ hg, hgo, hgm⟩

lemma foundLogs_no_error (fs : FS) : (foundLogs fs).countP isErrorLog = 0 := by
  rw [List.countP_eq_zero]
  intro m hm
  simp only [foundLogs, List.mem_cons, List.mem_map] at hm
  rcases hm with h | ⟨ec, hec, h⟩ <;> subst h <;> simp [isErrorLog]

lemma process_images_run (fs : FS) (out : String) (size : ℤ × ℤ)
    (w : ℤ) (hne : (find_images fs).1.isEmpty = false) (hw : ¬ (w ≤ 0)) :
    process_images fs out size w =
      { raised := none,
        scheduled := (find_images fs).1.map (fun f => f.path),
        logs := (foundLogs fs ++
            ((find_images fs).1.map (fun f =>
              resize_image size f (relDest out f))).map (fun r => r.2)) ++
          [LogMsg.info "Time taken to resize images."],
        destWrites := (((find_images fs).1.map (fun f =>
          resize_image size f (relDest out f))).map (fun r => r.1)).flatten } := by
  unfold process_images
  rw [hne]
  simp [hw]

/-- C8: when the target size is valid, the pool has at least one worker,
and exactly one image in the discovered batch is corrupt, the batch
completes without raising, every other image's resized output is written,
and exactly one failure — logged with the causing exception's type and
message for the corrupt image — is reported. -/
theorem process_images_failure_isolation (fs : FS) (out : String)
    (size : ℤ × ℤ) (w : ℤ)
    (hs : 0 < size.1 ∧ 0 < size.2) (hw : 1 ≤ w)
    (hone : (find_images fs).1.countP (fun f => ! f.ok) = 1) :
    (process_images fs out size w).raised = none ∧
      (process_images fs out size w).logs.countP isErrorLog = 1 ∧
      (process_images fs out size w).destWrites =
        ((find_images fs).1.filter (fun f => f.ok)).map (relDest out) ∧
      (process_images fs out size w).scheduled =
        (find_images fs).1.map (fun f => f.path) ∧
      (∀ m ∈ (process_images fs out size w).logs, isErrorLog m = true →
        ∃ f ∈ (find_images fs).1, f.ok = false ∧
          m = LogMsg.error ("Error resizing image " ++ f.path ++
            ": UnidentifiedImageError - cannot identify image file")) := by
  have hne : (find_images fs).1.isEmpty = false := by
    rcases h : (find_images fs).1 with _ | ⟨f, rest⟩
    · rw [h] at hone; simp at hone
    · rfl
  have hwle : ¬ (w ≤ 0) := by omega
  obtain ⟨hb1, hb2, hb3⟩ := resize_batch hs out (find_images fs).1
  rw [process_images_run fs out size w hne hwle]
  refine ⟨rfl, ?_, ?_, rfl, ?_⟩
  · show ((foundLogs fs ++ _) ++ _).countP isErrorLog = 1
    rw [List.countP_append, List.countP_append, foundLogs_no_error, hb1,
      hone]
    simp [isErrorLog]
  · exact hb2
  · intro m hm hme
    rcases List.mem_append.mp hm with h1 | h1
    · rcases List.mem_append.mp h1 with h2 | h2
      · exfalso
        have := foundLogs_no_error fs
        rw [List.countP_eq_zero] at this
        have := this m h2
        rw [hme] at this
        exact absurd this (by simp)
      · exact hb3 m h2 hme
    · simp at h1
      rw [h1] at hme
      exact absurd hme (by simp [isErrorLog])

/-- The discovered tree for the C8 witness: three images, one corrupt. -/
def c8FS : FS :=
  { rootIsDir := true,
    files := [⟨"bird/a.jpg", ".jpg", true⟩, ⟨"bird/b.jpg", ".jpg", false⟩,
      ⟨"cat/c.png", ".png", true⟩] }

/-- Witness for C8: a concrete 3-image batch with one corrupt image
completes, writes the two valid outputs, and reports exactly one
failure. -/
theorem process_images_failure_isolation_witness :
    ((0:ℤ) < (224, 224).1 ∧ (0:ℤ) < (224, 224).2 ∧ (1:ℤ) ≤ 4 ∧
      (find_images c8FS).1.countP (fun f => ! f.ok) = 1) ∧
    (process_images c8FS "out" (224, 224) 4).raised = none ∧
    (process_images c8FS "out" (224, 224) 4).logs.countP isErrorLog = 1 ∧
    (process_images c8FS "out" (224, 224) 4).destWrites =
      ["out/bird/a.jpg", "out/cat/c.png"] := by
  have h := process_images_failure_isolation c8FS "out" (224, 224) 4
    (by constructor <;> norm_num) (by norm_num) (by decide)
  refine ⟨⟨by norm_num, by norm_num, by norm_num, by decide⟩,
    h.1, h.2.1, ?_⟩
  rw [h.2.2.1]
  decide

/-- The discovered tree for the C5 failing runs: a single readable
image. -/
def c5FS : FS :=
  { rootIsDir := true, files := [⟨"bird/a.jpg", ".jpg", true⟩] }

/-- C5 fails on the code: `process_images` validates neither the target
size nor the worker count.  With `size = (0, 0)` and one worker, the run
schedules its task, and completes with `raised = none` — the per-image
`ValueError` is caught inside `resize_image` and merely logged — instead
of failing fast with a `ValidationError` before scheduling.  And with
`max_workers = 0` on a rootless (empty) tree, the early no-images return
fires first, so not even the pool constructor's `ValueError` is
raised. -/
theorem process_images_no_validation :
    (process_images c5FS "out" (0, 0) 1).raised = none ∧
      (process_images c5FS "out" (0, 0) 1).scheduled = ["bird/a.jpg"] ∧
      (process_images c5FS "out" (0, 0) 1).destWrites = [] ∧
      (process_images c5FS "out" (0, 0) 1).logs.countP isErrorLog = 1 ∧
      (process_images { rootIsDir := true, files := [] } "out" (10, 10)
          0).raised = none := by
  refine ⟨rfl, by decide, by decide, by decide, rfl⟩

end PreprocessImages
